import Mathlib

/-!
Shallow embedding of `go/vt/vttablet/tabletservermock/controller.go` from
vitess: the mock tabletserver `Controller` test double.

Modelling conventions:
- Each Go method becomes a pure Lean function over a `Controller` state value.
  A method that returns `error` returns `Option ε` (`none` = nil error).
- The two buffered channels (`BroadcastData`, `StateChanges`) are modelled as
  lists holding, in send order, every value sent so far.
- `*rules.Rules` values are an opaque type parameter `ρ`; the injected error
  value is an opaque type parameter `ε`.  A Go nil pointer is `Option.none`.
- `SetServingType` dereferences `tqsc.target` when no injected error is set;
  with a nil target that is a nil-pointer panic, modelled by returning `none`
  at the outer `Option` layer (the non-panicking result is `some`).
- Pointer identity of `*querypb.Target` (needed for the deep-copy claims
  about `proto.Clone`) is modelled separately by a small explicit heap of
  `Target` cells, where `proto.Clone` allocates a fresh cell.
-/

namespace TabletServerMock

/-- Modelled from the spec: the tablet type enumeration
(`topodatapb.TabletType`, generated protobuf code outside this repository);
the spec's examples use REPLICA, PRIMARY, RDONLY. -/
inductive TabletType where
  | unknown
  | primary
  | replica
  | rdonly
  | spare
  | backup
  | restore
  | drained
deriving DecidableEq, Repr

/-- Modelled from the spec: the (keyspace, shard, tablet-type) triple
(`querypb.Target`, generated protobuf code outside this repository). -/
structure Target where
  keyspace : String
  shard : String
  tabletType : TabletType
deriving DecidableEq, Repr

/-- Modelled from the spec: the broadcast metadata payload
(`querypb.RealtimeStats`, generated protobuf code outside this repository);
only its zero value matters here, since the double never populates it. -/
structure RealtimeStats where
  healthError : String
  replicationLagSeconds : Nat
deriving DecidableEq, Repr

/-- The zero value of `RealtimeStats` (Go struct zero value). -/
def RealtimeStats.zero : RealtimeStats := { healthError := "", replicationLagSeconds := 0 }

/-- Go struct `BroadcastData`: value sent on the broadcast channel by `BroadcastHealth`. -/
structure BroadcastData where
  terTimestamp : Int
  realtimeStats : RealtimeStats
  serving : Bool
deriving DecidableEq, Repr

/-- Go struct `StateChange`: value sent on the state-change channel by `SetServingType`. -/
structure StateChange where
  serving : Bool
  tabletType : TabletType
deriving DecidableEq, Repr

/-- The mock `Controller` state.  `ε` is the error type, `ρ` the type of a
(non-nil) `*rules.Rules` value.  Channels are lists of all values sent so
far, oldest first. -/
structure Controller (ε ρ : Type) where
  broadcastSent : List BroadcastData
  stateChangesSent : List StateChange
  target : Option Target
  SetServingTypeError : Option ε
  queryServiceEnabled : Bool
  isInLameduck : Bool
  queryRulesMap : String → Option ρ

/-- Constructor `NewController`: fresh double.  Go zero values: nil target, nil injected
error, `queryServiceEnabled = false`, `isInLameduck = false`, empty map,
empty channels. -/
def NewController (ε ρ : Type) : Controller ε ρ :=
  { broadcastSent := []
    stateChangesSent := []
    target := none
    SetServingTypeError := none
    queryServiceEnabled := false
    isInLameduck := false
    queryRulesMap := fun _ => none }

variable {ε ρ : Type}

/-- Method `InitDBConfig`: stores `proto.Clone(target)` (a value copy) as the current
target and returns nil error.  The `dbcfgs` and `MysqlDaemon` arguments are
never inspected by the Go code and are elided. -/
def InitDBConfig (c : Controller ε ρ) (target : Target) : Controller ε ρ × Option ε :=
  ({ c with target := some target }, none)

/-- Method `SetServingType(tabletType, terTime, serving, reason)`.  `terTime` and
`reason` are ignored by the Go body.  When no injected error is set, the body
writes `tqsc.target.TabletType`, which panics on a nil target: that case is
the outer `none`.  Otherwise returns the post state and the returned error. -/
def SetServingType (c : Controller ε ρ) (tabletType : TabletType) (_terTime : Int)
    (serving : Bool) (_reason : String) : Option (Controller ε ρ × Option ε) :=
  match c.SetServingTypeError with
  | none =>
    match c.target with
    | none => none
    | some t =>
      some ({ c with
                target := some { t with tabletType := tabletType }
                queryServiceEnabled := serving
                stateChangesSent := c.stateChangesSent ++
                  [{ serving := serving, tabletType := tabletType }]
                isInLameduck := false },
            none)
  | some e =>
    some ({ c with
              stateChangesSent := c.stateChangesSent ++
                [{ serving := serving, tabletType := tabletType }]
              isInLameduck := false },
          some e)

/-- Method `IsServing`: returns `queryServiceEnabled`. -/
def IsServing (c : Controller ε ρ) : Bool :=
  c.queryServiceEnabled

/-- Method `CurrentTarget`: returns `proto.Clone(tqsc.target)`; under value
semantics the clone is the value itself (aliasing is treated in the heap
model below). -/
def CurrentTarget (c : Controller ε ρ) : Option Target :=
  c.target

/-- Method `IsHealthy`: always nil. -/
def IsHealthy (_c : Controller ε ρ) : Option ε :=
  none

/-- Method `ReloadSchema`: always nil; the context argument is never inspected. -/
def ReloadSchema (_c : Controller ε ρ) : Option ε :=
  none

/-- Method `ClearQueryPlanCache`: no-op. -/
def ClearQueryPlanCache (c : Controller ε ρ) : Controller ε ρ :=
  c

/-- Method `RegisterQueryRuleSource`: no-op. -/
def RegisterQueryRuleSource (c : Controller ε ρ) (_ruleSource : String) : Controller ε ρ :=
  c

/-- Method `UnRegisterQueryRuleSource`: no-op. -/
def UnRegisterQueryRuleSource (c : Controller ε ρ) (_ruleSource : String) : Controller ε ρ :=
  c

/-- Method `SetQueryRules`: stores/overwrites `qrs` at key `ruleSource`; nil error. -/
def SetQueryRules (c : Controller ε ρ) (ruleSource : String) (qrs : ρ) :
    Controller ε ρ × Option ε :=
  ({ c with queryRulesMap := fun k => if k = ruleSource then some qrs else c.queryRulesMap k },
   none)

/-- Method `BroadcastHealth`: sends `BroadcastData` with only `Serving` populated,
equal to `queryServiceEnabled && !isInLameduck`; other fields stay zero. -/
def BroadcastHealth (c : Controller ε ρ) : Controller ε ρ :=
  { c with broadcastSent := c.broadcastSent ++
      [{ terTimestamp := 0
         realtimeStats := RealtimeStats.zero
         serving := c.queryServiceEnabled && !c.isInLameduck }] }

/-- Method `EnterLameduck`: sets `isInLameduck = true`. -/
def EnterLameduck (c : Controller ε ρ) : Controller ε ρ :=
  { c with isInLameduck := true }

/-- Method `SetQueryServiceEnabledForTests`: force-sets `queryServiceEnabled`. -/
def SetQueryServiceEnabledForTests (c : Controller ε ρ) (enabled : Bool) : Controller ε ρ :=
  { c with queryServiceEnabled := enabled }

/-- Method `GetQueryRules`: map lookup; missing key gives the Go nil (`none`). -/
def GetQueryRules (c : Controller ε ρ) (ruleSource : String) : Option ρ :=
  c.queryRulesMap ruleSource

/-- Runs a sequence of `SetServingType` calls, each given as
(tabletType, servingFlag); `none` if any call panics. -/
def runCalls (c : Controller ε ρ) : List (TabletType × Bool) → Option (Controller ε ρ)
  | [] => some c
  | (tt, s) :: rest =>
    match SetServingType c tt 0 s "" with
    | none => none
    | some (c1, _) => runCalls c1 rest

/-- Runs a sequence of `SetQueryRules` calls. -/
def runSetRules (c : Controller ε ρ) : List (String × ρ) → Controller ε ρ
  | [] => c
  | (src, r) :: rest => runSetRules (SetQueryRules c src r).1 rest

/-!
Pointer-level model of `*querypb.Target` for the `proto.Clone` deep-copy
claims.  A heap is a list of `Target` cells; an address is an index.
`proto.Clone` reads the source cell and allocates a fresh cell holding the
same contents, so the returned address is distinct from every live address.
-/

/-- Heap of `Target` cells; address = list index. -/
structure TargetHeap where
  cells : List Target
deriving DecidableEq, Repr

/-- Reads the cell at address `a` (`none` for a dangling address). -/
def TargetHeap.read (h : TargetHeap) (a : Nat) : Option Target :=
  h.cells[a]?

/-- Allocates a fresh cell holding `t`; returns the new heap and address. -/
def TargetHeap.alloc (h : TargetHeap) (t : Target) : TargetHeap × Nat :=
  ({ cells := h.cells ++ [t] }, h.cells.length)

/-- Overwrites the cell at address `a` (mutation through a pointer). -/
def TargetHeap.write (h : TargetHeap) (a : Nat) (t : Target) : TargetHeap :=
  { cells := h.cells.set a t }

/-- Models `proto.Clone` on a `*querypb.Target`: allocate a fresh cell with the
same contents as the cell at `a`. -/
def protoClone (h : TargetHeap) (a : Nat) : Option (TargetHeap × Nat) :=
  (h.read a).map (fun t => h.alloc t)

/-- Method `CurrentTarget` at the pointer level, for a controller whose internal
`target` pointer is `r`: returns `proto.Clone(tqsc.target)`. -/
def CurrentTargetRef (h : TargetHeap) (r : Nat) : Option (TargetHeap × Nat) :=
  protoClone h r

/-- Method `InitDBConfig` at the pointer level: the controller stores
`proto.Clone(target)`, a fresh cell copied from the caller's argument cell
`argRef`; the returned address is the new internal `target` pointer. -/
def InitDBConfigRef (h : TargetHeap) (argRef : Nat) : Option (TargetHeap × Nat) :=
  protoClone h argRef

/-!
Straight-line action traces for the locking discipline.  Each method body is
rendered as its sequence of atomic steps in source order: `mu.Lock()`,
in-memory field updates, channel sends, and the deferred `mu.Unlock()`
(which Go runs at return, hence last).
-/

/-- One atomic step of a method body. -/
inductive Action where
  | lockAcquire
  | fieldUpdate
  | queuePush
  | lockRelease
deriving DecidableEq, Repr

/-- Source-order trace of `SetServingType`: Lock; conditional writes to
`target.TabletType` and `queryServiceEnabled`; send on `StateChanges`;
write `isInLameduck`; deferred Unlock at return. -/
def setServingTypeActions : List Action :=
  [Action.lockAcquire, Action.fieldUpdate, Action.queuePush,
   Action.fieldUpdate, Action.lockRelease]

/-- Source-order trace of `BroadcastHealth`: Lock; send on `BroadcastData`;
deferred Unlock at return. -/
def broadcastHealthActions : List Action :=
  [Action.lockAcquire, Action.queuePush, Action.lockRelease]

/-- Predicate `pushWhileHeld held tr`: true iff some `queuePush` in `tr` happens
while the mutex is held (`held` = held on entry). -/
def pushWhileHeld : Bool → List Action → Bool
  | _, [] => false
  | _, Action.lockAcquire :: rest => pushWhileHeld true rest
  | _, Action.lockRelease :: rest => pushWhileHeld false rest
  | held, Action.queuePush :: rest => held || pushWhileHeld held rest
  | held, Action.fieldUpdate :: rest => pushWhileHeld held rest

/-- Observation of a controller through its two read accessors:
`CurrentTarget().TabletType` and `IsServing()`. -/
def observeServing (c : Controller ε ρ) : Option TabletType × Bool :=
  ((CurrentTarget c).map Target.tabletType, IsServing c)

/-- Observation of a `SetServingType` result: post-state target, serving
flag, state-change channel contents, lameduck flag, and returned error. -/
def resultView (p : Controller ε ρ × Option ε) :
    Option Target × Bool × List StateChange × Bool × Option ε :=
  (p.1.target, p.1.queryServiceEnabled, p.1.stateChangesSent, p.1.isInLameduck, p.2)

/-- The `StateChange` value that a `SetServingType(tt, _, s, _)` call sends. -/
def eventOf (p : TabletType × Bool) : StateChange :=
  { serving := p.2, tabletType := p.1 }

/-- Sample target for concrete witnesses (spec §8 concrete scenario). -/
def sampleTarget : Target :=
  { keyspace := "ks", shard := "0", tabletType := TabletType.replica }

/-- A fresh double after `InitDBConfig` stored `sampleTarget`. -/
def configuredController : Controller String Nat :=
  (InitDBConfig (NewController String Nat) sampleTarget).1

/-- Like `configuredController` but with the injected failure `"ErrX"` set. -/
def failingController : Controller String Nat :=
  { configuredController with SetServingTypeError := some "ErrX" }

/-- Dereferences the address returned together with a heap. -/
def readResult (pr : TargetHeap × Nat) : Option Target :=
  pr.1.read pr.2

/-- One-cell sample heap for concrete witnesses. -/
def sampleHeap : TargetHeap :=
  { cells := [sampleTarget] }

/-- A second target value, used to overwrite cells in witnesses. -/
def otherTarget : Target :=
  { keyspace := "other", shard := "1", tabletType := TabletType.primary }

/-!  Theorems.  -/

/-- Successful `SetServingType`: no injected error and a non-nil target. -/
theorem SetServingType_ok {c : Controller ε ρ} {t : Target}
    (hE : c.SetServingTypeError = none) (hT : c.target = some t)
    (tt : TabletType) (tm : Int) (s : Bool) (rsn : String) :
    SetServingType c tt tm s rsn =
      some ({ c with
                target := some { t with tabletType := tt }
                queryServiceEnabled := s
                stateChangesSent := c.stateChangesSent ++ [{ serving := s, tabletType := tt }]
                isInLameduck := false },
            none) := by
  simp [SetServingType, hE, hT]

/-- Behaviour of `SetServingType` with an injected error set. -/
theorem SetServingType_err {c : Controller ε ρ} {e : ε}
    (hE : c.SetServingTypeError = some e)
    (tt : TabletType) (tm : Int) (s : Bool) (rsn : String) :
    SetServingType c tt tm s rsn =
      some ({ c with
                stateChangesSent := c.stateChangesSent ++ [{ serving := s, tabletType := tt }]
                isInLameduck := false },
            some e) := by
  simp [SetServingType, hE]

/-- C2: with an injected failure `e` set, `SetServingType` returns exactly
`e`; the target and the serving flag are unchanged; the state-change event
is still enqueued and lameduck is still cleared. -/
theorem setServingType_injected_failure_atomic
    (c : Controller ε ρ) (e : ε) (hE : c.SetServingTypeError = some e)
    (tt : TabletType) (tm : Int) (s : Bool) (rsn : String) :
    (SetServingType c tt tm s rsn).map resultView =
      some (c.target, c.queryServiceEnabled,
            c.stateChangesSent ++ [{ serving := s, tabletType := tt }], false, some e) := by
  rw [SetServingType_err hE tt tm s rsn]
  rfl

/-- C2 witness: the spec's concrete scenario with injected failure `"ErrX"`. -/
theorem setServingType_injected_failure_atomic_witness :
    (SetServingType failingController TabletType.primary 0 true "promote").map resultView =
      some (some sampleTarget, false,
            [{ serving := true, tabletType := TabletType.primary }], false, some "ErrX") :=
  setServingType_injected_failure_atomic failingController "ErrX" rfl
    TabletType.primary 0 true "promote"

/-- C4: after any non-panicking `SetServingType` call, failing or not,
`isInLameduck` is false. -/
theorem setServingType_clears_lameduck
    (c : Controller ε ρ) (tt : TabletType) (tm : Int) (s : Bool) (rsn : String) :
    Option.all (fun p => !p.1.isInLameduck) (SetServingType c tt tm s rsn) = true := by
  cases hE : c.SetServingTypeError with
  | none =>
    cases hT : c.target with
    | none => simp [SetServingType, hE, hT]
    | some t => rw [SetServingType_ok hE hT tt tm s rsn]; rfl
  | some e => rw [SetServingType_err hE tt tm s rsn]; rfl

/-- C5: `BroadcastHealth` enqueues exactly one event whose serving field is
`queryServiceEnabled && !isInLameduck`, other fields zero; after
`EnterLameduck` the value is false although `IsServing` is untouched; on a
fresh double it is false. -/
theorem broadcastHealth_effective_serving (c : Controller ε ρ) :
    BroadcastHealth c =
      { c with broadcastSent := c.broadcastSent ++
          [{ terTimestamp := 0, realtimeStats := RealtimeStats.zero,
             serving := c.queryServiceEnabled && !c.isInLameduck }] }
    ∧ (BroadcastHealth (EnterLameduck c)).broadcastSent =
        c.broadcastSent ++
          [{ terTimestamp := 0, realtimeStats := RealtimeStats.zero, serving := false }]
    ∧ IsServing (EnterLameduck c) = IsServing c
    ∧ (BroadcastHealth (NewController ε ρ)).broadcastSent =
        [{ terTimestamp := 0, realtimeStats := RealtimeStats.zero, serving := false }] := by
  refine ⟨rfl, ?_, rfl, rfl⟩
  simp [BroadcastHealth, EnterLameduck]

/-- C8: every operation other than `SetServingType` returns nil error, and
the register/unregister operations change nothing at all. -/
theorem non_setServingType_ops_never_fail
    (c : Controller ε ρ) (t : Target) (src : String) (r : ρ) :
    (InitDBConfig c t).2 = none
    ∧ IsHealthy c = (none : Option ε)
    ∧ ReloadSchema c = (none : Option ε)
    ∧ (SetQueryRules c src r).2 = none
    ∧ RegisterQueryRuleSource c src = c
    ∧ UnRegisterQueryRuleSource c src = c :=
  ⟨rfl, rfl, rfl, rfl, rfl, rfl⟩

/-- C9 counterexample: in the source-order trace of `SetServingType` the
channel send does happen while the mutex is held (the deferred unlock runs
only at return), so the claim "the lock is never held across the
event-queue push" is false. -/
theorem lock_not_held_across_push_false :
    ¬ (pushWhileHeld false setServingTypeActions = false) := by
  decide

/-- C9 amended: in both `SetServingType` and `BroadcastHealth` the
event-queue push occurs while the exclusive lock is held; the lock,
acquired at entry and released by `defer` at return, covers the push as
well as the in-memory field updates. -/
theorem push_occurs_while_lock_held :
    pushWhileHeld false setServingTypeActions = true
    ∧ pushWhileHeld false broadcastHealthActions = true := by
  decide

/-- C7: `CurrentTarget` (and the copy stored by `InitDBConfig`) is a
`proto.Clone`: a freshly allocated cell, at an address distinct from the
internal target's; overwriting the returned cell leaves the internal cell,
and what a later `CurrentTarget` returns, unchanged; overwriting the
caller's argument cell after `InitDBConfig` leaves the stored cell
unchanged. -/
theorem currentTarget_returns_independent_copy
    (h : TargetHeap) (r : Nat) (t t1 : Target) (hread : h.read r = some t) :
    CurrentTargetRef h r = some (h.alloc t)
    ∧ InitDBConfigRef h r = some (h.alloc t)
    ∧ (h.alloc t).2 ≠ r
    ∧ ((h.alloc t).1.write (h.alloc t).2 t1).read r = some t
    ∧ (CurrentTargetRef ((h.alloc t).1.write (h.alloc t).2 t1) r).map readResult =
        some (some t)
    ∧ ((h.alloc t).1.write r t1).read (h.alloc t).2 = some t := by
  have hr : r < h.cells.length := by
    by_contra hcon
    rw [TargetHeap.read, List.getElem?_eq_none (Nat.le_of_not_lt hcon)] at hread
    cases hread
  have hclone : protoClone h r = some (h.alloc t) := by
    rw [protoClone, hread]
    rfl
  have hpreserve : ((h.alloc t).1.write (h.alloc t).2 t1).read r = some t := by
    simp only [TargetHeap.write, TargetHeap.read, TargetHeap.alloc]
    rw [List.getElem?_set_ne (Nat.ne_of_gt hr)]
    rw [List.getElem?_append_left hr]
    exact hread
  refine ⟨hclone, hclone, Nat.ne_of_gt hr, hpreserve, ?_, ?_⟩
  · rw [CurrentTargetRef, protoClone, hpreserve]
    simp [readResult, TargetHeap.alloc, TargetHeap.read, List.getElem?_concat_length]
  · simp only [TargetHeap.write, TargetHeap.read, TargetHeap.alloc]
    rw [List.getElem?_set_ne (Nat.ne_of_lt hr)]
    exact List.getElem?_concat_length h.cells t

/-- C7 witness: on the one-cell sample heap, the clone lands at address 1,
and overwrites through either address leave the other cell intact. -/
theorem currentTarget_returns_independent_copy_witness :
    CurrentTargetRef sampleHeap 0 = some (sampleHeap.alloc sampleTarget)
    ∧ InitDBConfigRef sampleHeap 0 = some (sampleHeap.alloc sampleTarget)
    ∧ (sampleHeap.alloc sampleTarget).2 ≠ 0
    ∧ ((sampleHeap.alloc sampleTarget).1.write
        (sampleHeap.alloc sampleTarget).2 otherTarget).read 0 = some sampleTarget
    ∧ (CurrentTargetRef
        ((sampleHeap.alloc sampleTarget).1.write
          (sampleHeap.alloc sampleTarget).2 otherTarget) 0).map readResult =
        some (some sampleTarget)
    ∧ ((sampleHeap.alloc sampleTarget).1.write 0 otherTarget).read
        (sampleHeap.alloc sampleTarget).2 = some sampleTarget :=
  currentTarget_returns_independent_copy sampleHeap 0 sampleTarget otherTarget rfl

/-- C10: `SetServingType` on a controller whose target is still nil and
with no injected failure dereferences the nil target (panics, the outer
`none`); whenever a target has been stored or an injected failure is set,
the call is non-panicking. -/
theorem setServingType_requires_target
    (c : Controller ε ρ) (tt : TabletType) (tm : Int) (s : Bool) (rsn : String) :
    (c.target = none → c.SetServingTypeError = none →
      SetServingType c tt tm s rsn = none)
    ∧ (c.target.isSome ∨ c.SetServingTypeError.isSome →
        (SetServingType c tt tm s rsn).isSome) := by
  constructor
  · intro hT hE
    simp [SetServingType, hE, hT]
  · intro h
    cases hE : c.SetServingTypeError with
    | some e => rw [SetServingType_err hE tt tm s rsn]; rfl
    | none =>
      cases hT : c.target with
      | some t => rw [SetServingType_ok hE hT tt tm s rsn]; rfl
      | none =>
        rcases h with h | h
        · rw [hT] at h; cases h
        · rw [hE] at h; cases h

/-- C1: after the Nth call of any sequence of `SetServingType` calls with no
injected failure, starting from a controller with a stored target,
`CurrentTarget().tabletType` is the Nth call's tabletType and `IsServing()`
is the Nth call's serving flag. -/
theorem setServingType_sequence_tracks_calls
    (c : Controller ε ρ) (t : Target)
    (hE : c.SetServingTypeError = none) (hT : c.target = some t)
    (cs : List (TabletType × Bool)) (n : Nat) (hn : n < cs.length) :
    (runCalls c (cs.take (n + 1))).map observeServing =
      some (some (cs.get ⟨n, hn⟩).1, (cs.get ⟨n, hn⟩).2) := by
  induction cs generalizing c t n with
  | nil => exact absurd hn (Nat.not_lt_zero n)
  | cons hd rest ih =>
    obtain ⟨a, b⟩ := hd
    have hstep := SetServingType_ok hE hT a 0 b ""
    cases n with
    | zero =>
      simp [runCalls, hstep, observeServing, CurrentTarget, IsServing]
    | succ m =>
      have hm : m < rest.length := Nat.lt_of_succ_lt_succ hn
      have hrec := ih (c := { c with
          target := some { t with tabletType := a }
          queryServiceEnabled := b
          stateChangesSent := c.stateChangesSent ++ [{ serving := b, tabletType := a }]
          isInLameduck := false })
        (t := { t with tabletType := a }) hE rfl m hm
      rw [List.take_succ_cons]
      simp only [runCalls, hstep]
      exact hrec

/-- C1 witness: two calls on the configured sample double; after the second
call the observed tablet type and serving flag are the second call's
arguments. -/
theorem setServingType_sequence_tracks_calls_witness :
    (runCalls configuredController
        ([(TabletType.replica, true), (TabletType.primary, false)].take 2)).map observeServing =
      some (some TabletType.primary, false) :=
  setServingType_sequence_tracks_calls configuredController sampleTarget rfl rfl
    [(TabletType.replica, true), (TabletType.primary, false)] 1 (by decide)

/-- C3: every `SetServingType` call, with or without injected failure,
enqueues exactly one `StateChange` carrying its arguments; a call sequence
leaves the channel holding exactly the corresponding events in call order. -/
theorem setServingType_enqueues_every_call
    (c : Controller ε ρ) (h : c.SetServingTypeError.isSome ∨ c.target.isSome)
    (cs : List (TabletType × Bool)) :
    (runCalls c cs).map Controller.stateChangesSent =
      some (c.stateChangesSent ++ cs.map eventOf) := by
  induction cs generalizing c with
  | nil => simp [runCalls]
  | cons hd rest ih =>
    obtain ⟨a, b⟩ := hd
    cases hE : c.SetServingTypeError with
    | some e =>
      have hstep := SetServingType_err hE a 0 b ""
      have hrec := ih (c := { c with
          stateChangesSent := c.stateChangesSent ++ [{ serving := b, tabletType := a }]
          isInLameduck := false })
        (Or.inl (by simp only [hE]; rfl))
      simp only [runCalls, hstep]
      rw [hrec]
      simp [eventOf]
    | none =>
      have hT : c.target.isSome := by
        rcases h with h | h
        · rw [hE] at h; cases h
        · exact h
      obtain ⟨t, ht⟩ := Option.isSome_iff_exists.mp hT
      have hstep := SetServingType_ok hE ht a 0 b ""
      have hrec := ih (c := { c with
          target := some { t with tabletType := a }
          queryServiceEnabled := b
          stateChangesSent := c.stateChangesSent ++ [{ serving := b, tabletType := a }]
          isInLameduck := false })
        (Or.inr (by simp))
      simp only [runCalls, hstep]
      rw [hrec]
      simp [eventOf]

/-- C3 witness: with the injected failure set, the call still enqueues its
event. -/
theorem setServingType_enqueues_every_call_witness :
    (runCalls failingController [(TabletType.primary, true)]).map Controller.stateChangesSent =
      some [{ serving := true, tabletType := TabletType.primary }] :=
  setServingType_enqueues_every_call failingController (Or.inl rfl)
    [(TabletType.primary, true)]

/-- Draining a rule-set batch that never touches `src` leaves the lookup at
`src` unchanged. -/
theorem getQueryRules_runSetRules_not_mem
    (c : Controller ε ρ) (sets : List (String × ρ)) (src : String)
    (h : src ∉ sets.map Prod.fst) :
    GetQueryRules (runSetRules c sets) src = GetQueryRules c src := by
  induction sets generalizing c with
  | nil => rfl
  | cons hd rest ih =>
    obtain ⟨s, r⟩ := hd
    simp only [List.map_cons, List.mem_cons, not_or] at h
    simp only [runSetRules]
    rw [ih _ h.2]
    simp [GetQueryRules, SetQueryRules, h.1]

/-- C6: `SetQueryRules(src, R)` then `GetQueryRules(src)` returns `R`; a
later set on the same key overwrites; a never-set source reads back as
absent. -/
theorem queryRules_set_get_roundtrip
    (c : Controller ε ρ) (src : String) (r r' : ρ) (sets : List (String × ρ))
    (h : src ∉ sets.map Prod.fst) :
    GetQueryRules (SetQueryRules c src r).1 src = some r
    ∧ GetQueryRules (SetQueryRules (SetQueryRules c src r').1 src r).1 src = some r
    ∧ GetQueryRules (runSetRules (NewController ε ρ) sets) src = none := by
  refine ⟨by simp [GetQueryRules, SetQueryRules],
          by simp [GetQueryRules, SetQueryRules], ?_⟩
  rw [getQueryRules_runSetRules_not_mem _ sets src h]
  rfl

/-- C6 witness: concrete rule sources. -/
theorem queryRules_set_get_roundtrip_witness :
    GetQueryRules (SetQueryRules (NewController String Nat) "a" 1).1 "a" = some 1
    ∧ GetQueryRules
        (SetQueryRules (SetQueryRules (NewController String Nat) "a" 2).1 "a" 1).1 "a" = some 1
    ∧ GetQueryRules (runSetRules (NewController String Nat) [("b", 5)]) "a" = none :=
  queryRules_set_get_roundtrip (NewController String Nat) "a" 1 2 [("b", 5)] (by simp)

/-- C10 witness: a fresh never-configured double panics; the configured
sample double does not. -/
theorem setServingType_requires_target_witness :
    SetServingType (NewController String Nat) TabletType.replica 0 true "r" = none
    ∧ (SetServingType configuredController TabletType.replica 0 true "r").isSome :=
  ⟨(setServingType_requires_target (NewController String Nat)
      TabletType.replica 0 true "r").1 rfl rfl,
   (setServingType_requires_target configuredController
      TabletType.replica 0 true "r").2 (Or.inl rfl)⟩

end TabletServerMock
